import Mathlib

/-!
Shallow embedding of the DVSA bot's captcha-handling and queue-waiting logic
(`src/captcha_handler.py` and `src/bot.py`).

The browser page is modelled as an explicit `PageState`; the external browser
driver is modelled as an `Env` of transition functions (one per remediation
action the code can perform) together with boolean fault flags that summarize
the `try`/`except` blocks guarding fallible driver calls.  Each solver is a
pure function from an `Env` and a `World` (page plus iframe focus) to an
`Outcome` recording the boolean result, the final world, and the trace of
remediation actions performed, in order.
-/

namespace DvsaBot

/-- Substring test: `containsStr s pat` holds when `pat` occurs inside `s`.
Models Python's `pat in s` on strings. -/
def containsStr (s pat : String) : Bool :=
  s.toList.tails.any fun t => pat.toList.isPrefixOf t

/-- Observable state of the browser page, as inspected by the handler.
String fields mirror `driver.title`, `driver.page_source` and
`str(driver.get_cookies())`; the boolean fields record whether the various
selector lists used by the Python code locate an element on this page. -/
structure PageState where
  /-- `driver.title`. -/
  title : String
  /-- `driver.page_source`. -/
  pageSource : String
  /-- `str(driver.get_cookies())`. -/
  cookies : String
  /-- some selector of `_is_imperva_captcha_present`'s list matches. -/
  impervaElement : Bool
  /-- some selector of `_is_google_recaptcha_present`'s list matches. -/
  recaptchaElement : Bool
  /-- `src` attributes of the page's iframes, in DOM order. -/
  iframeSrcs : List String
  /-- some selector of `_solve_imperva_captcha`'s checkbox list is clickable. -/
  impervaCheckbox : Bool
  /-- a Buster solver-button is present on the Imperva page. -/
  impervaBusterButton : Bool
  /-- a Buster solver-button is present inside the reCAPTCHA challenge iframe. -/
  challengeBusterButton : Bool
  /-- element ids found by the four interactive-element selectors of
  `_solve_incapsula_captcha`, grouped by selector. -/
  interactiveGroups : List (List Nat)
deriving Repr

/-- Which document currently has the driver's focus
(`driver.switch_to.frame` / `driver.switch_to.default_content`). -/
inductive Focus where
  | topLevel
  | anchorFrame
  | challengeFrame
deriving Repr, DecidableEq

/-- Browser state threaded through the solvers: the page plus the iframe focus. -/
structure World where
  page : PageState
  focus : Focus
deriving Repr

/-- Remediation actions a solver can perform, recorded in the outcome trace. -/
inductive Action where
  | refresh
  | clickImpervaCheckbox
  | clickBusterImperva
  | manualWait (secs : Nat)
  | switchToAnchorFrame
  | clickRecaptchaCheckbox
  | switchToDefaultContent
  | switchToChallengeFrame
  | clickBusterRecaptcha
  | clickInteractive (id : Nat)
deriving Repr, DecidableEq

/-- Result of a solver run: boolean result, final browser state, and the
ordered trace of remediation actions performed. -/
structure Outcome where
  ok : Bool
  world : World
  trace : List Action
deriving Repr

/-- The external browser/site environment: how the page reacts to each
remediation action.  Each transition includes the settling sleep the code
performs right after the action.  The `...Fails` flags summarize the
`try`/`except` blocks around the corresponding fallible driver calls: when a
flag is true the call raises and the code's handler for it runs. -/
structure Env where
  /-- effect of `driver.refresh()` plus the following sleep. -/
  refreshPage : PageState → PageState
  /-- effect of the JavaScript click on the Imperva checkbox plus sleep. -/
  clickImpervaCheckbox : PageState → PageState
  /-- effect of clicking the Buster button on the Imperva page plus sleep. -/
  clickImpervaBuster : PageState → PageState
  /-- the Buster click attempt on the Imperva page raises (caught, page kept). -/
  impervaBusterFails : PageState → Bool
  /-- effect of the bounded manual-intervention wait of the given seconds. -/
  manualWait : Nat → PageState → PageState
  /-- effect of clicking the reCAPTCHA anchor checkbox plus sleep. -/
  clickRecaptchaCheckbox : PageState → PageState
  /-- locating/clicking the reCAPTCHA checkbox raises (timeout or click error). -/
  recaptchaCheckboxFails : PageState → Bool
  /-- effect of clicking the Buster button inside the challenge iframe. -/
  clickRecaptchaBuster : PageState → PageState
  /-- the challenge-iframe Buster section raises (caught, focus restored). -/
  challengeBusterFails : PageState → Bool
  /-- effect of clicking interactive element `id` on an Incapsula page. -/
  clickInteractive : Nat → PageState → PageState
  /-- clicking interactive element `id` raises (caught, loop continues). -/
  clickInteractiveFails : Nat → PageState → Bool
  /-- `element.is_displayed()` for interactive element `id` on the given page. -/
  elemDisplayed : Nat → PageState → Bool

/-- The Incapsula body-text marker checked by `_solve_incapsula_captcha`. -/
def incapMarker : String := "Incapsula incident ID"

/-- Embeds the 403 test `"403" in self.driver.title or "Forbidden" in
self.driver.page_source` (lines 27 and 169 of `captcha_handler.py`). -/
def is_403 (p : PageState) : Bool :=
  containsStr p.title "403" || containsStr p.pageSource "Forbidden"

/-- Embeds `_is_imperva_captcha_present`: true when one of the eight Imperva
detection selectors locates an element. -/
def is_imperva_captcha_present (p : PageState) : Bool :=
  p.impervaElement

/-- Embeds `_is_google_recaptcha_present`: one of the six reCAPTCHA selectors
matches, or some iframe on the page has `"recaptcha"` in its `src`. -/
def is_google_recaptcha_present (p : PageState) : Bool :=
  p.recaptchaElement || p.iframeSrcs.any (fun s => containsStr s "recaptcha")

/-- Embeds `_is_incapsula_present`: any of the two page-source substrings or
the two cookie-name substrings. -/
def is_incapsula_present (p : PageState) : Bool :=
  containsStr p.pageSource incapMarker ||
  containsStr p.pageSource "/_Incapsula_" ||
  containsStr p.cookies "incap_ses_" ||
  containsStr p.cookies "visid_incap_"

/-- Embeds `detect_captcha`: 403 first, then the `captcha_types` dict in its
insertion order (imperva, recaptcha, incapsula); first match wins, else none. -/
def detect_captcha (p : PageState) : Option String :=
  if is_403 p then some "forbidden"
  else if is_imperva_captcha_present p then some "imperva"
  else if is_google_recaptcha_present p then some "recaptcha"
  else if is_incapsula_present p then some "incapsula"
  else none

/-- Embeds `_solve_imperva_captcha` (lines 176-275).  The checkbox search over
the selector list is summarized by `page.impervaCheckbox`; the Buster
button-click loop by `impervaBusterButton` together with the
`impervaBusterFails` flag. -/
def solve_imperva (env : Env) (w : World) : Outcome :=
  if w.page.impervaCheckbox then
    let p1 := env.clickImpervaCheckbox w.page
    let tr1 := [Action.clickImpervaCheckbox]
    if !is_imperva_captcha_present p1 then
      { ok := true, world := { w with page := p1 }, trace := tr1 }
    else
      let p2 := if p1.impervaBusterButton && !env.impervaBusterFails p1 then
                  env.clickImpervaBuster p1
                else p1
      let tr2 := if p1.impervaBusterButton && !env.impervaBusterFails p1 then
                   tr1 ++ [Action.clickBusterImperva]
                 else tr1
      if !is_imperva_captcha_present p2 then
        { ok := true, world := { w with page := p2 }, trace := tr2 }
      else
        let p3 := env.manualWait 60 p2
        let tr3 := tr2 ++ [Action.manualWait 60]
        if !is_imperva_captcha_present p3 then
          { ok := true, world := { w with page := p3 }, trace := tr3 }
        else
          { ok := false, world := { w with page := p3 }, trace := tr3 }
  else
    let p1 := env.manualWait 60 w.page
    let tr1 := [Action.manualWait 60]
    if !is_imperva_captcha_present p1 then
      { ok := true, world := { w with page := p1 }, trace := tr1 }
    else
      { ok := false, world := { w with page := p1 }, trace := tr1 }

/-- Embeds `_solve_google_recaptcha` (lines 277-408).  The iframe searches use
the page's `iframeSrcs`; `recaptchaCheckboxFails` summarizes the inner
`try`/`except` around locating and clicking the anchor checkbox (its handler
restores default content and falls back to a manual wait);
`challengeBusterFails` summarizes the `try`/`except` around the
challenge-iframe Buster section (its handler restores default content). -/
def solve_recaptcha (env : Env) (w : World) : Outcome :=
  if !(w.page.iframeSrcs.any (fun s => containsStr s "recaptcha/api2/anchor")) then
    let p1 := env.manualWait 60 w.page
    let tr1 := [Action.manualWait 60]
    if !is_google_recaptcha_present p1 then
      { ok := true, world := { w with page := p1 }, trace := tr1 }
    else
      { ok := false, world := { w with page := p1 }, trace := tr1 }
  else
    if env.recaptchaCheckboxFails w.page then
      let p1 := env.manualWait 60 w.page
      let tr1 := [Action.switchToAnchorFrame, Action.switchToDefaultContent,
                  Action.manualWait 60]
      if !is_google_recaptcha_present p1 then
        { ok := true, world := { page := p1, focus := Focus.topLevel }, trace := tr1 }
      else
        { ok := false, world := { page := p1, focus := Focus.topLevel }, trace := tr1 }
    else
      let p1 := env.clickRecaptchaCheckbox w.page
      let tr1 := [Action.switchToAnchorFrame, Action.clickRecaptchaCheckbox,
                  Action.switchToDefaultContent]
      if !is_google_recaptcha_present p1 then
        { ok := true, world := { page := p1, focus := Focus.topLevel }, trace := tr1 }
      else
        let hasChallenge := p1.iframeSrcs.any (fun s => containsStr s "recaptcha/api2/bframe")
        let p2 := if hasChallenge then
                    if env.challengeBusterFails p1 then p1
                    else if p1.challengeBusterButton then env.clickRecaptchaBuster p1
                    else p1
                  else p1
        let tr2 := if hasChallenge then
                     if env.challengeBusterFails p1 then
                       tr1 ++ [Action.switchToChallengeFrame, Action.switchToDefaultContent]
                     else if p1.challengeBusterButton then
                       tr1 ++ [Action.switchToChallengeFrame, Action.clickBusterRecaptcha,
                               Action.switchToDefaultContent]
                     else
                       tr1 ++ [Action.switchToChallengeFrame, Action.switchToDefaultContent]
                   else tr1
        let p3 := env.manualWait 90 p2
        let tr3 := tr2 ++ [Action.manualWait 90]
        if !is_google_recaptcha_present p3 then
          { ok := true, world := { page := p3, focus := Focus.topLevel }, trace := tr3 }
        else
          { ok := false, world := { page := p3, focus := Focus.topLevel }, trace := tr3 }

/-- Inner loop of `_solve_incapsula_captcha` over the snapshot of elements
returned by one `find_elements` call: clicks each displayed element (skipping
those whose click raises) and returns early when the body marker clears. -/
def incapClickElems (env : Env) : List Nat → PageState → List Action →
    Bool × PageState × List Action
  | [], p, tr => (false, p, tr)
  | e :: es, p, tr =>
    if env.elemDisplayed e p then
      if env.clickInteractiveFails e p then
        incapClickElems env es p tr
      else
        let p1 := env.clickInteractive e p
        if !containsStr p1.pageSource incapMarker then
          (true, p1, tr ++ [Action.clickInteractive e])
        else
          incapClickElems env es p1 (tr ++ [Action.clickInteractive e])
    else
      incapClickElems env es p tr

/-- Outer loop of `_solve_incapsula_captcha` over the four interactive-element
selectors; each selector's `find_elements` snapshot is read off the page
current at that point. -/
def incapKindsLoop (env : Env) : List Nat → PageState → List Action →
    Bool × PageState × List Action
  | [], p, tr => (false, p, tr)
  | k :: ks, p, tr =>
    let es := p.interactiveGroups.getD k []
    let r := incapClickElems env es p tr
    if r.1 then r else incapKindsLoop env ks r.2.1 r.2.2

/-- Embeds `_solve_incapsula_captcha` (lines 410-468): refresh and settle,
re-check the body-text marker; if still present try the interactive elements;
finally a 60-second manual wait and one last re-check. -/
def solve_incapsula (env : Env) (w : World) : Outcome :=
  let p1 := env.refreshPage w.page
  let tr1 := [Action.refresh]
  if !containsStr p1.pageSource incapMarker then
    { ok := true, world := { w with page := p1 }, trace := tr1 }
  else
    let r := incapKindsLoop env [0, 1, 2, 3] p1 tr1
    if r.1 then
      { ok := true, world := { w with page := r.2.1 }, trace := r.2.2 }
    else
      let p3 := env.manualWait 60 r.2.1
      let tr3 := r.2.2 ++ [Action.manualWait 60]
      if !containsStr p3.pageSource incapMarker then
        { ok := true, world := { w with page := p3 }, trace := tr3 }
      else
        { ok := false, world := { w with page := p3 }, trace := tr3 }

/-- Embeds `handle_403_error` (lines 150-174).  When Imperva or Incapsula
markers are found inside the 403 body the code calls
`solve_captcha("imperva")` or `solve_captcha("incapsula")`, whose dispatch is
exactly the corresponding private solver; otherwise it refreshes, re-checks
the 403 signal once, and on failure performs the manual wait and returns
false without any further re-check. -/
def handle_403_error (env : Env) (w : World) : Outcome :=
  if is_imperva_captcha_present w.page || is_incapsula_present w.page then
    if is_imperva_captcha_present w.page then solve_imperva env w
    else solve_incapsula env w
  else
    let p1 := env.refreshPage w.page
    if is_403 p1 then
      let p2 := env.manualWait 60 p1
      { ok := false, world := { w with page := p2 },
        trace := [Action.refresh, Action.manualWait 60] }
    else
      { ok := true, world := { w with page := p1 }, trace := [Action.refresh] }

/-- Embeds `solve_captcha` (lines 45-68).  A `none` or empty-string argument
is falsy in Python, so detection runs first in those cases; an unrecognized
non-empty type falls to the final `else` returning false. -/
def solve_captcha (env : Env) (w : World) (captchaType : Option String) : Outcome :=
  let ct : Option String :=
    match captchaType with
    | none => detect_captcha w.page
    | some s => if s = "" then detect_captcha w.page else some s
  match ct with
  | none => { ok := true, world := w, trace := [] }
  | some s =>
    if s = "imperva" then solve_imperva env w
    else if s = "recaptcha" then solve_recaptcha env w
    else if s = "incapsula" then solve_incapsula env w
    else if s = "forbidden" then handle_403_error env w
    else { ok := false, world := w, trace := [] }

/-- The queue host checked by `wait_for_queue` in `bot.py`. -/
def queueDomain : String := "queue.driverpracticaltest.dvsa.gov.uk"

/-- Embeds the test `"queue.driverpracticaltest.dvsa.gov.uk" in
self.driver.current_url`. -/
def inQueueDomain (url : String) : Bool :=
  containsStr url queueDomain

/-- Environment for `wait_for_queue`: the current URL read at the k-th poll of
`driver.current_url`, the whole seconds spent handling captchas during the
k-th loop iteration, and the randomized jitter (the `random.uniform(0, 5)`
part of `_random_sleep(10.0, 5.0)`) of that iteration, in whole seconds. -/
structure QueueEnv where
  urlAt : Nat → String
  captchaTime : Nat → Nat
  jitter : Nat → Nat

/-- Seconds consumed by loop iteration `k` of `wait_for_queue`: captcha
handling plus the 10-second base sleep plus the jitter. -/
def stepDur (env : QueueEnv) (k : Nat) : Nat :=
  env.captchaTime k + 10 + env.jitter k

/-- Embeds the `while time.time() - queue_start_time < max_wait_seconds` loop
of `wait_for_queue` (lines 355-377 of `bot.py`).  `elapsed` is the seconds
elapsed since `queue_start_time` and `k` the index of the next poll of
`driver.current_url`.  Returns the boolean result together with the elapsed
time at exit.  The loop terminates because every iteration consumes at least
the 10-second base sleep. -/
def waitLoop (env : QueueEnv) (budget : Nat) (elapsed : Nat) (k : Nat) : Bool × Nat :=
  if h : elapsed < budget then
    if !inQueueDomain (env.urlAt k) then (true, elapsed)
    else waitLoop env budget (elapsed + stepDur env k) (k + 1)
  else
    (false, elapsed)
termination_by budget - elapsed
decreasing_by
  simp only [stepDur]
  omega

/-- Embeds `wait_for_queue` (lines 341-380 of `bot.py`): poll 0 decides whether
the queue is present at all; the loop then polls 1, 2, ... with a time budget
of `maxWaitMinutes * 60` seconds. -/
def wait_for_queue (env : QueueEnv) (maxWaitMinutes : Nat) : Bool × Nat :=
  if inQueueDomain (env.urlAt 0) then
    waitLoop env (maxWaitMinutes * 60) 0 1
  else
    (true, 0)

/-- Total seconds consumed by the `n` loop iterations polling at indices
`k, k+1, ..., k+n-1`. -/
def sumDur (env : QueueEnv) (k : Nat) : Nat → Nat
  | 0 => 0
  | n + 1 => stepDur env k + sumDur env (k + 1) n

/-! Concrete instances used by witnesses and counterexamples. -/

/-- A page with no challenge markers at all. -/
def emptyPage : PageState :=
  { title := "", pageSource := "", cookies := "", impervaElement := false,
    recaptchaElement := false, iframeSrcs := [], impervaCheckbox := false,
    impervaBusterButton := false, challengeBusterButton := false,
    interactiveGroups := [] }

/-- An inert environment: every action leaves the page unchanged and no
driver call raises. -/
def idEnv : Env :=
  { refreshPage := id, clickImpervaCheckbox := id, clickImpervaBuster := id,
    impervaBusterFails := fun _ => false, manualWait := fun _ p => p,
    clickRecaptchaCheckbox := id, recaptchaCheckboxFails := fun _ => false,
    clickRecaptchaBuster := id, challengeBusterFails := fun _ => false,
    clickInteractive := fun _ p => p, clickInteractiveFails := fun _ _ => false,
    elemDisplayed := fun _ _ => true }

/-- A world with no challenge markers, focused at the top level. -/
def w0 : World := { page := emptyPage, focus := Focus.topLevel }

/-! Dispatch equations of `solve_captcha`: each recognized non-empty type
routes to its private solver.  These hold by computation. -/

theorem solve_captcha_imperva_eq (env : Env) (w : World) :
    solve_captcha env w (some "imperva") = solve_imperva env w := rfl

theorem solve_captcha_recaptcha_eq (env : Env) (w : World) :
    solve_captcha env w (some "recaptcha") = solve_recaptcha env w := rfl

theorem solve_captcha_incapsula_eq (env : Env) (w : World) :
    solve_captcha env w (some "incapsula") = solve_incapsula env w := rfl

theorem solve_captcha_forbidden_eq (env : Env) (w : World) :
    solve_captcha env w (some "forbidden") = handle_403_error env w := rfl

/-- Claim C3: `detect_captcha` classifies with the deterministic priority
order Forbidden > Imperva > GoogleRecaptcha > Incapsula, first match wins; in
particular a page exhibiting both a Forbidden signal and an Imperva marker
classifies as Forbidden. -/
theorem detect_priority_order (p : PageState) :
    (is_403 p = true → is_imperva_captcha_present p = true →
      detect_captcha p = some "forbidden") ∧
    (is_403 p = false → is_imperva_captcha_present p = true →
      detect_captcha p = some "imperva") ∧
    (is_403 p = false → is_imperva_captcha_present p = false →
      is_google_recaptcha_present p = true →
      detect_captcha p = some "recaptcha") ∧
    (is_403 p = false → is_imperva_captcha_present p = false →
      is_google_recaptcha_present p = false → is_incapsula_present p = true →
      detect_captcha p = some "incapsula") := by
  unfold detect_captcha
  refine ⟨?_, ?_, ?_, ?_⟩ <;> intros <;> simp_all

/-- Witness for C3 at a concrete page showing both signals. -/
theorem detect_priority_order_witness :
    detect_captcha { emptyPage with title := "403", impervaElement := true } =
      some "forbidden" :=
  (detect_priority_order _).1 (by decide) (by decide)

/-- Claim C8: with no Forbidden signal, no Imperva marker, no reCAPTCHA marker
and no Incapsula indicator, `detect_captcha` returns none and `solve_captcha`
with no explicit type performs no remediation action and returns true. -/
theorem no_marker_detect_none_solve_true (env : Env) (w : World)
    (h1 : is_403 w.page = false) (h2 : is_imperva_captcha_present w.page = false)
    (h3 : is_google_recaptcha_present w.page = false)
    (h4 : is_incapsula_present w.page = false) :
    detect_captcha w.page = none ∧
      solve_captcha env w none = { ok := true, world := w, trace := [] } := by
  have hd : detect_captcha w.page = none := by
    unfold detect_captcha
    simp [h1, h2, h3, h4]
  refine ⟨hd, ?_⟩
  unfold solve_captcha
  simp [hd]

/-- Witness for C8 on the marker-free page. -/
theorem no_marker_detect_none_solve_true_witness :
    detect_captcha emptyPage = none ∧
      solve_captcha idEnv w0 none = { ok := true, world := w0, trace := [] } :=
  no_marker_detect_none_solve_true idEnv w0 rfl rfl rfl rfl

/-- Claim C10: a non-empty challenge type outside the recognized set falls to
the final else of `solve_captcha`, which returns false with no remediation
action performed (and, the embedding being a total function, no exception). -/
theorem unknown_type_returns_false (env : Env) (w : World) (s : String)
    (h0 : s ≠ "") (h1 : s ≠ "imperva") (h2 : s ≠ "recaptcha")
    (h3 : s ≠ "incapsula") (h4 : s ≠ "forbidden") :
    solve_captcha env w (some s) = { ok := false, world := w, trace := [] } := by
  unfold solve_captcha
  simp [h0, h1, h2, h3, h4]

/-- Witness for C10 with the unrecognized type string. -/
theorem unknown_type_returns_false_witness :
    solve_captcha idEnv w0 (some "cloudflare") =
      { ok := false, world := w0, trace := [] } :=
  unknown_type_returns_false idEnv w0 "cloudflare" (by decide) (by decide)
    (by decide) (by decide) (by decide)

/-- Claim C5: when the Imperva checkbox is located and clicking it removes the
Imperva marker, `solve_captcha` on the imperva type returns true after exactly
one click-and-recheck cycle: the trace is the single checkbox click, with no
Buster step and no manual wait. -/
theorem imperva_one_click_success (env : Env) (w : World)
    (hcb : w.page.impervaCheckbox = true)
    (hclear : is_imperva_captcha_present (env.clickImpervaCheckbox w.page) = false) :
    solve_captcha env w (some "imperva") =
      { ok := true, world := { w with page := env.clickImpervaCheckbox w.page },
        trace := [Action.clickImpervaCheckbox] } := by
  rw [solve_captcha_imperva_eq]
  unfold solve_imperva
  simp [hcb, hclear]

/-- Environment whose Imperva checkbox click clears the marker. -/
def envClearClick : Env :=
  { idEnv with clickImpervaCheckbox := fun p => { p with impervaElement := false } }

/-- A page presenting the Imperva challenge with a locatable checkbox. -/
def impervaPage : PageState :=
  { emptyPage with impervaElement := true, impervaCheckbox := true }

/-- Witness for C5 on the concrete Imperva page. -/
theorem imperva_one_click_success_witness :
    solve_captcha envClearClick { page := impervaPage, focus := Focus.topLevel }
        (some "imperva") =
      { ok := true,
        world := { page := envClearClick.clickImpervaCheckbox impervaPage,
                   focus := Focus.topLevel },
        trace := [Action.clickImpervaCheckbox] } :=
  imperva_one_click_success envClearClick _ rfl rfl

/-- Claim C6: when the Incapsula body-text marker is present before the
refresh and absent after the refresh-and-settle, `solve_captcha` on the
incapsula type returns true with only the refresh in its trace: neither the
interactive-element clicking step nor the manual wait is reached. -/
theorem incapsula_refresh_success (env : Env) (w : World)
    (_hbefore : containsStr w.page.pageSource incapMarker = true)
    (hafter : containsStr (env.refreshPage w.page).pageSource incapMarker = false) :
    solve_captcha env w (some "incapsula") =
      { ok := true, world := { w with page := env.refreshPage w.page },
        trace := [Action.refresh] } := by
  rw [solve_captcha_incapsula_eq]
  unfold solve_incapsula
  simp [hafter]

/-- Environment whose refresh lands on a page without the Incapsula marker. -/
def envClearRefresh : Env :=
  { idEnv with refreshPage := fun p => { p with pageSource := "" } }

/-- A page carrying the Incapsula body-text marker. -/
def incapsulaPage : PageState :=
  { emptyPage with pageSource := "x Incapsula incident ID: 1" }

/-- Witness for C6 on the concrete Incapsula page. -/
theorem incapsula_refresh_success_witness :
    solve_captcha envClearRefresh { page := incapsulaPage, focus := Focus.topLevel }
        (some "incapsula") =
      { ok := true,
        world := { page := envClearRefresh.refreshPage incapsulaPage,
                   focus := Focus.topLevel },
        trace := [Action.refresh] } :=
  incapsula_refresh_success envClearRefresh _ (by decide) (by decide)

/-- Claim C9: detection (`_is_incapsula_present`, four indicators) and the
Incapsula solver's success check (the single body-text marker) use different
predicates: on a page detected as Incapsula solely via cookies or the
`/_Incapsula_` substring, the solver returns true immediately after the
refresh step even though the detection predicate still holds on the final
page. -/
theorem incapsula_predicate_mismatch (env : Env) (w : World)
    (_hdet : is_incapsula_present w.page = true)
    (_hnobody : containsStr w.page.pageSource incapMarker = false)
    (hafter : containsStr (env.refreshPage w.page).pageSource incapMarker = false)
    (hstill : is_incapsula_present (env.refreshPage w.page) = true) :
    (solve_captcha env w (some "incapsula")).ok = true ∧
    (solve_captcha env w (some "incapsula")).trace = [Action.refresh] ∧
    is_incapsula_present (solve_captcha env w (some "incapsula")).world.page = true := by
  rw [solve_captcha_incapsula_eq]
  unfold solve_incapsula
  simp [hafter, hstill]

/-- A page detected as Incapsula only through the session cookie. -/
def incapCookiePage : PageState :=
  { emptyPage with cookies := "[incap_ses_151]" }

/-- Witness for C9 on the cookie-only page with an inert refresh. -/
theorem incapsula_predicate_mismatch_witness :
    (solve_captcha idEnv { page := incapCookiePage, focus := Focus.topLevel }
        (some "incapsula")).ok = true ∧
    (solve_captcha idEnv { page := incapCookiePage, focus := Focus.topLevel }
        (some "incapsula")).trace = [Action.refresh] ∧
    is_incapsula_present
        (solve_captcha idEnv { page := incapCookiePage, focus := Focus.topLevel }
          (some "incapsula")).world.page = true :=
  incapsula_predicate_mismatch idEnv _ (by decide) (by decide) (by decide) (by decide)

/-- Claim C2: on every path through the reCAPTCHA solver (success, failure, or
a caught exception at the fallible driver calls), the browser focus is back at
the top-level document when the solver returns. -/
theorem recaptcha_restores_top_level_focus (env : Env) (w : World)
    (h : w.focus = Focus.topLevel) :
    (solve_captcha env w (some "recaptcha")).world.focus = Focus.topLevel := by
  rw [solve_captcha_recaptcha_eq]
  unfold solve_recaptcha
  split_ifs <;> simp [h, apply_ite Outcome.world, apply_ite World.focus]

/-- Witness for C2 on the marker-free world. -/
theorem recaptcha_restores_top_level_focus_witness :
    (solve_captcha idEnv w0 (some "recaptcha")).world.focus = Focus.topLevel :=
  recaptcha_restores_top_level_focus idEnv w0 rfl

/-! Claim C1 concerns `handle_403_error`.  After the refresh fails to clear
the 403 signal, the code performs the manual wait and returns false
unconditionally, without re-checking the marker (lines 169-172), so a run in
which the marker clears during the manual-wait window still returns false. -/

/-- Environment whose manual wait clears every textual marker (the human
solved the challenge during the window); every other action is inert. -/
def envCured : Env :=
  { idEnv with manualWait := fun _ p => { p with title := "", pageSource := "" } }

/-- A world showing only the 403 Forbidden signal. -/
def w403 : World :=
  { page := { emptyPage with title := "HTTP 403" }, focus := Focus.topLevel }

/-- Counterexample to claim C1: on the 403-only page whose manual wait clears
the Forbidden marker, `solve_captcha` on the forbidden type still returns
false, although the final page no longer shows the Forbidden signal. -/
theorem forbidden_cleared_during_wait_still_false :
    (solve_captcha envCured w403 (some "forbidden")).ok = false ∧
    is_403 (solve_captcha envCured w403 (some "forbidden")).world.page = false := by
  constructor <;> decide

/-- Claim C1 (amended): for the Forbidden type, when the 403 body shows no
Imperva or Incapsula markers and the refresh leaves the 403 signal in place,
`solve_captcha` performs the manual wait and then returns false
unconditionally — it does not re-check whether the marker cleared during the
manual-wait window (the post-manual-wait re-check exists in the Imperva,
reCAPTCHA and Incapsula solvers, but not in `handle_403_error`). -/
theorem forbidden_manual_wait_unconditional (env : Env) (w : World)
    (h1 : is_imperva_captcha_present w.page = false)
    (h2 : is_incapsula_present w.page = false)
    (h3 : is_403 (env.refreshPage w.page) = true) :
    solve_captcha env w (some "forbidden") =
      { ok := false,
        world := { w with page := env.manualWait 60 (env.refreshPage w.page) },
        trace := [Action.refresh, Action.manualWait 60] } := by
  rw [solve_captcha_forbidden_eq]
  unfold handle_403_error
  simp [h1, h2, h3]

/-- Witness for the amended C1 on the concrete 403-only world. -/
theorem forbidden_manual_wait_unconditional_witness :
    solve_captcha envCured w403 (some "forbidden") =
      { ok := false,
        world := { w403 with page := envCured.manualWait 60 (envCured.refreshPage w403.page) },
        trace := [Action.refresh, Action.manualWait 60] } :=
  forbidden_manual_wait_unconditional envCured w403 (by decide) (by decide) (by decide)

/-! Claim C4 machinery: an environment in which no automated step and no
manual wait ever clears a challenge marker. -/

/-- A page transition preserves each solver's challenge marker: the 403
signal, the Imperva element, the reCAPTCHA marker, and the Incapsula
body-text marker. -/
def PreservesMarkers (f : PageState → PageState) : Prop :=
  ∀ p, (is_403 p = true → is_403 (f p) = true) ∧
    (is_imperva_captcha_present p = true → is_imperva_captcha_present (f p) = true) ∧
    (is_google_recaptcha_present p = true → is_google_recaptcha_present (f p) = true) ∧
    (containsStr p.pageSource incapMarker = true →
      containsStr (f p).pageSource incapMarker = true)

/-- Every remediation transition of the environment preserves the challenge
markers: all automated steps fail to clear them, and the manual-wait window
elapses with the markers still present. -/
def EnvPreservesMarkers (env : Env) : Prop :=
  PreservesMarkers env.refreshPage ∧
  PreservesMarkers env.clickImpervaCheckbox ∧
  PreservesMarkers env.clickImpervaBuster ∧
  PreservesMarkers env.clickRecaptchaCheckbox ∧
  PreservesMarkers env.clickRecaptchaBuster ∧
  (∀ n, PreservesMarkers (env.manualWait n)) ∧
  (∀ i, PreservesMarkers (env.clickInteractive i))

lemma incapClickElems_marker (env : Env)
    (hc : ∀ i, PreservesMarkers (env.clickInteractive i)) :
    ∀ (es : List Nat) (p : PageState) (tr : List Action),
      containsStr p.pageSource incapMarker = true →
      (incapClickElems env es p tr).1 = false ∧
      containsStr (incapClickElems env es p tr).2.1.pageSource incapMarker = true := by
  intro es
  induction es with
  | nil =>
    intro p tr h
    simpa [incapClickElems] using h
  | cons e es ih =>
    intro p tr h
    have hkeep : containsStr (env.clickInteractive e p).pageSource incapMarker = true :=
      ((hc e) p).2.2.2 h
    by_cases hd : env.elemDisplayed e p = true
    · by_cases hf : env.clickInteractiveFails e p = true
      · simpa [incapClickElems, hd, hf] using ih p tr h
      · simpa [incapClickElems, hd, hf, hkeep] using
          ih (env.clickInteractive e p) (tr ++ [Action.clickInteractive e]) hkeep
    · simpa [incapClickElems, hd] using ih p tr h

lemma incapKindsLoop_marker (env : Env)
    (hc : ∀ i, PreservesMarkers (env.clickInteractive i)) :
    ∀ (ks : List Nat) (p : PageState) (tr : List Action),
      containsStr p.pageSource incapMarker = true →
      (incapKindsLoop env ks p tr).1 = false ∧
      containsStr (incapKindsLoop env ks p tr).2.1.pageSource incapMarker = true := by
  intro ks
  induction ks with
  | nil =>
    intro p tr h
    simpa [incapKindsLoop] using h
  | cons k ks ih =>
    intro p tr h
    have hel := incapClickElems_marker env hc (p.interactiveGroups.getD k []) p tr h
    have hnext := ih (incapClickElems env (p.interactiveGroups.getD k []) p tr).2.1
      (incapClickElems env (p.interactiveGroups.getD k []) p tr).2.2 hel.2
    simp only [incapKindsLoop]
    rw [hel.1]
    simpa using hnext

lemma solve_incapsula_exhausted (env : Env) (w : World)
    (h : EnvPreservesMarkers env)
    (hm : containsStr w.page.pageSource incapMarker = true) :
    (solve_incapsula env w).ok = false := by
  obtain ⟨hr, -, -, -, -, hw, hc⟩ := h
  have h1 : containsStr (env.refreshPage w.page).pageSource incapMarker = true :=
    (hr w.page).2.2.2 hm
  have hloop := incapKindsLoop_marker env hc [0, 1, 2, 3] (env.refreshPage w.page)
    [Action.refresh] h1
  have h3 : containsStr
      (env.manualWait 60 (incapKindsLoop env [0, 1, 2, 3] (env.refreshPage w.page)
        [Action.refresh]).2.1).pageSource incapMarker = true :=
    ((hw 60) _).2.2.2 hloop.2
  unfold solve_incapsula
  simp [h1, hloop.1, h3]

lemma solve_imperva_exhausted (env : Env) (w : World)
    (h : EnvPreservesMarkers env)
    (hm : is_imperva_captcha_present w.page = true) :
    (solve_imperva env w).ok = false := by
  obtain ⟨-, hck, hbu, -, -, hw, -⟩ := h
  by_cases hcb : w.page.impervaCheckbox = true
  · have h1 : is_imperva_captcha_present (env.clickImpervaCheckbox w.page) = true :=
      (hck w.page).2.1 hm
    by_cases hb : (env.clickImpervaCheckbox w.page).impervaBusterButton = true ∧
        env.impervaBusterFails (env.clickImpervaCheckbox w.page) = false
    · have h2 : is_imperva_captcha_present
          (env.clickImpervaBuster (env.clickImpervaCheckbox w.page)) = true :=
        (hbu _).2.1 h1
      have h3 : is_imperva_captcha_present
          (env.manualWait 60 (env.clickImpervaBuster (env.clickImpervaCheckbox w.page))) = true :=
        ((hw 60) _).2.1 h2
      unfold solve_imperva
      simp [hcb, h1, hb.1, hb.2, h2, h3]
    · have h3 : is_imperva_captcha_present
          (env.manualWait 60 (env.clickImpervaCheckbox w.page)) = true :=
        ((hw 60) _).2.1 h1
      unfold solve_imperva
      rcases Decidable.not_and_iff_or_not.mp hb with hb1 | hb2
      · simp [hcb, h1, Bool.eq_false_iff.mpr hb1, h3]
      · have : env.impervaBusterFails (env.clickImpervaCheckbox w.page) = true := by
          revert hb2
          cases env.impervaBusterFails (env.clickImpervaCheckbox w.page) <;> simp
        simp [hcb, h1, this, h3]
  · have h1 : is_imperva_captcha_present (env.manualWait 60 w.page) = true :=
      ((hw 60) _).2.1 hm
    unfold solve_imperva
    simp [hcb, h1]

lemma solve_recaptcha_exhausted (env : Env) (w : World)
    (h : EnvPreservesMarkers env)
    (hm : is_google_recaptcha_present w.page = true) :
    (solve_recaptcha env w).ok = false := by
  obtain ⟨-, -, -, hck, hbu, hw, -⟩ := h
  by_cases ha : (w.page.iframeSrcs.any fun s => containsStr s "recaptcha/api2/anchor") = true
  · by_cases hf : env.recaptchaCheckboxFails w.page = true
    · have h1 : is_google_recaptcha_present (env.manualWait 60 w.page) = true :=
        ((hw 60) _).2.2.1 hm
      unfold solve_recaptcha
      simp [ha, hf, h1]
    · have h1 : is_google_recaptcha_present (env.clickRecaptchaCheckbox w.page) = true :=
        (hck w.page).2.2.1 hm
      have h2 : ∀ q, is_google_recaptcha_present q = true →
          is_google_recaptcha_present (env.manualWait 90 q) = true :=
        fun q hq => ((hw 90) q).2.2.1 hq
      have h3 : is_google_recaptcha_present
          (env.clickRecaptchaBuster (env.clickRecaptchaCheckbox w.page)) = true :=
        (hbu _).2.2.1 h1
      unfold solve_recaptcha
      by_cases hc : ((env.clickRecaptchaCheckbox w.page).iframeSrcs.any
          fun s => containsStr s "recaptcha/api2/bframe") = true
      · by_cases hcf : env.challengeBusterFails (env.clickRecaptchaCheckbox w.page) = true
        · simp [ha, hf, h1, hc, hcf, h2 _ h1]
        · by_cases hbb : (env.clickRecaptchaCheckbox w.page).challengeBusterButton = true
          · simp [ha, hf, h1, hc, hcf, hbb, h2 _ h3]
          · simp [ha, hf, h1, hc, hcf, hbb, h2 _ h1]
      · simp [ha, hf, h1, hc, h2 _ h1]
  · have h1 : is_google_recaptcha_present (env.manualWait 60 w.page) = true :=
      ((hw 60) _).2.2.1 hm
    unfold solve_recaptcha
    simp [ha, h1]

lemma handle_403_exhausted (env : Env) (w : World)
    (h : EnvPreservesMarkers env)
    (hm : is_403 w.page = true)
    (h1 : is_imperva_captcha_present w.page = false)
    (h2 : is_incapsula_present w.page = false) :
    (handle_403_error env w).ok = false := by
  have h3 : is_403 (env.refreshPage w.page) = true := (h.1 w.page).1 hm
  unfold handle_403_error
  simp [h1, h2, h3]

/-- Claim C4: in an environment where no automated remediation step and no
manual-wait window clears the relevant challenge marker, `solve_captcha`
returns false for each of the four challenge types (the embedding is a total
boolean-valued function, mirroring the code's outer exception handlers that
convert every raise into a false return). -/
theorem solve_exhausted_returns_false (env : Env) (w : World)
    (h : EnvPreservesMarkers env) :
    (is_imperva_captcha_present w.page = true →
      (solve_captcha env w (some "imperva")).ok = false) ∧
    (is_google_recaptcha_present w.page = true →
      (solve_captcha env w (some "recaptcha")).ok = false) ∧
    (containsStr w.page.pageSource incapMarker = true →
      (solve_captcha env w (some "incapsula")).ok = false) ∧
    (is_403 w.page = true → is_imperva_captcha_present w.page = false →
      is_incapsula_present w.page = false →
      (solve_captcha env w (some "forbidden")).ok = false) := by
  refine ⟨?_, ?_, ?_, ?_⟩
  · intro hm
    rw [solve_captcha_imperva_eq]
    exact solve_imperva_exhausted env w h hm
  · intro hm
    rw [solve_captcha_recaptcha_eq]
    exact solve_recaptcha_exhausted env w h hm
  · intro hm
    rw [solve_captcha_incapsula_eq]
    exact solve_incapsula_exhausted env w h hm
  · intro hm h1 h2
    rw [solve_captcha_forbidden_eq]
    exact handle_403_exhausted env w h hm h1 h2

/-- A page presenting the Imperva, reCAPTCHA and Incapsula markers at once. -/
def allMarkersPage : PageState :=
  { emptyPage with
    impervaElement := true, recaptchaElement := true,
    pageSource := "Incapsula incident ID: 42" }

/-- The inert environment preserves all challenge markers. -/
theorem idEnv_preserves : EnvPreservesMarkers idEnv :=
  ⟨fun _ => ⟨id, id, id, id⟩, fun _ => ⟨id, id, id, id⟩, fun _ => ⟨id, id, id, id⟩,
   fun _ => ⟨id, id, id, id⟩, fun _ => ⟨id, id, id, id⟩,
   fun _ _ => ⟨id, id, id, id⟩, fun _ _ => ⟨id, id, id, id⟩⟩

/-- Witness for C4: in the inert environment all four solvers report false. -/
theorem solve_exhausted_returns_false_witness :
    (solve_captcha idEnv { page := allMarkersPage, focus := Focus.topLevel }
      (some "imperva")).ok = false ∧
    (solve_captcha idEnv { page := allMarkersPage, focus := Focus.topLevel }
      (some "recaptcha")).ok = false ∧
    (solve_captcha idEnv { page := allMarkersPage, focus := Focus.topLevel }
      (some "incapsula")).ok = false ∧
    (solve_captcha idEnv w403 (some "forbidden")).ok = false := by
  have hA := solve_exhausted_returns_false idEnv
    { page := allMarkersPage, focus := Focus.topLevel } idEnv_preserves
  have hB := solve_exhausted_returns_false idEnv w403 idEnv_preserves
  exact ⟨hA.1 (by decide), hA.2.1 (by decide), hA.2.2.1 (by decide),
    hB.2.2.2 (by decide) (by decide) (by decide)⟩

/-! Claim C7 machinery: behaviour of the `wait_for_queue` polling loop. -/

lemma stepDur_ge_ten (env : QueueEnv) (k : Nat) : 10 ≤ stepDur env k := by
  unfold stepDur
  omega

lemma waitLoop_all_in (env : QueueEnv) (budget : Nat)
    (hq : ∀ j, inQueueDomain (env.urlAt j) = true) :
    ∀ e k, (waitLoop env budget e k).1 = false := by
  have H : ∀ n e k, budget - e ≤ n → (waitLoop env budget e k).1 = false := by
    intro n
    induction n with
    | zero =>
      intro e k hn
      unfold waitLoop
      have he : ¬ e < budget := by omega
      simp [he]
    | succ n ih =>
      intro e k hn
      unfold waitLoop
      by_cases he : e < budget
      · have hs := stepDur_ge_ten env k
        simp only [he, dif_pos, hq k, Bool.not_true, Bool.false_eq_true, if_false]
        exact ih (e + stepDur env k) (k + 1) (by omega)
      · simp [he]
  exact fun e k => H (budget - e) e k le_rfl

lemma waitLoop_first_out (env : QueueEnv) (budget : Nat) :
    ∀ (n k e : Nat), (∀ j, k ≤ j → j < k + n → inQueueDomain (env.urlAt j) = true) →
      inQueueDomain (env.urlAt (k + n)) = false →
      e + sumDur env k n < budget →
      (waitLoop env budget e k).1 = true := by
  intro n
  induction n with
  | zero =>
    intro k e _ hout hb
    have he : e < budget := by simpa [sumDur] using hb
    have hout2 : inQueueDomain (env.urlAt k) = false := by simpa using hout
    unfold waitLoop
    simp [he, hout2]
  | succ n ih =>
    intro k e hin hout hb
    have hk : inQueueDomain (env.urlAt k) = true := hin k le_rfl (by omega)
    have he : e < budget := by
      have : 0 ≤ sumDur env (k + 1) n := Nat.zero_le _
      simp only [sumDur] at hb
      omega
    unfold waitLoop
    simp only [he, dif_pos, hk, Bool.not_true, Bool.false_eq_true, if_false]
    refine ih (k + 1) (e + stepDur env k)
      (fun j hj1 hj2 => hin j (by omega) (by omega)) ?_ ?_
    · have hek : k + 1 + n = k + (n + 1) := by omega
      rw [hek]
      exact hout
    · simp only [sumDur] at hb
      omega

lemma waitLoop_elapsed_bound (env : QueueEnv) (budget : Nat)
    (hq : ∀ j, inQueueDomain (env.urlAt j) = true)
    (hd : ∀ j, stepDur env j ≤ 15) :
    ∀ e k, e < budget + 15 → (waitLoop env budget e k).2 < budget + 15 := by
  have H : ∀ n e k, budget - e ≤ n → e < budget + 15 →
      (waitLoop env budget e k).2 < budget + 15 := by
    intro n
    induction n with
    | zero =>
      intro e k hn he15
      unfold waitLoop
      have he : ¬ e < budget := by omega
      simp [he, he15]
    | succ n ih =>
      intro e k hn he15
      unfold waitLoop
      by_cases he : e < budget
      · have hs := stepDur_ge_ten env k
        have hs15 := hd k
        simp only [he, dif_pos, hq k, Bool.not_true, Bool.false_eq_true, if_false]
        exact ih (e + stepDur env k) (k + 1) (by omega) (by omega)
      · simp [he, he15]
  exact fun e k => H (budget - e) e k le_rfl

/-- Claim C7: `wait_for_queue` terminates on every input (the embedding is a
total function, each loop iteration consuming at least the 10-second base
sleep): it returns true as soon as a location poll finds the URL outside the
queue domain while within budget; when the URL never leaves the queue domain
it returns false, with the elapsed time at exit below the budget plus one
polling interval (15 seconds when no captcha handling occurs and the jitter
stays within its 5-second range). -/
theorem wait_for_queue_bounded (env : QueueEnv) (m : Nat) :
    ((∀ j, inQueueDomain (env.urlAt j) = true) → (wait_for_queue env m).1 = false) ∧
    ((∀ j, inQueueDomain (env.urlAt j) = true) → (∀ j, stepDur env j ≤ 15) →
      (wait_for_queue env m).2 < m * 60 + 15) ∧
    (∀ K, 1 ≤ K → (∀ j, 1 ≤ j → j < K → inQueueDomain (env.urlAt j) = true) →
      inQueueDomain (env.urlAt K) = false → sumDur env 1 (K - 1) < m * 60 →
      (wait_for_queue env m).1 = true) := by
  refine ⟨?_, ?_, ?_⟩
  · intro hq
    unfold wait_for_queue
    simp only [hq 0, if_true]
    exact waitLoop_all_in env (m * 60) hq 0 1
  · intro hq hd
    unfold wait_for_queue
    simp only [hq 0, if_true]
    exact waitLoop_elapsed_bound env (m * 60) hq hd 0 1 (by omega)
  · intro K hK hin hout hb
    unfold wait_for_queue
    by_cases h0 : inQueueDomain (env.urlAt 0) = true
    · simp only [h0, if_true]
      have hK1 : 1 + (K - 1) = K := by omega
      refine waitLoop_first_out env (m * 60) (K - 1) 1 0
        (fun j hj1 hj2 => hin j hj1 (by omega)) ?_ (by omega)
      rw [hK1]
      exact hout
    · simp [h0]

/-- A queue environment whose page never leaves the queue domain, with no
captcha handling time and zero jitter. -/
def stuckQueueEnv : QueueEnv :=
  { urlAt := fun _ => "https://queue.driverpracticaltest.dvsa.gov.uk/?c=dvsatars",
    captchaTime := fun _ => 0, jitter := fun _ => 0 }

/-- Witness for C7: with a one-minute budget against the stuck queue page,
`wait_for_queue` returns false with at-exit elapsed time below 75 seconds. -/
theorem wait_for_queue_bounded_witness :
    (wait_for_queue stuckQueueEnv 1).1 = false ∧
    (wait_for_queue stuckQueueEnv 1).2 < 1 * 60 + 15 :=
  ⟨(wait_for_queue_bounded stuckQueueEnv 1).1 (fun _ => rfl),
   (wait_for_queue_bounded stuckQueueEnv 1).2.1 (fun _ => rfl)
     (fun _ => by show 0 + 10 + 0 ≤ 15; decide)⟩

end DvsaBot
